import Mathlib

/-!
Verification development for the globed2 game server core
(src/server/game/src/server.rs and src/server/game/src/client/unauthorized.rs).

The server side is modelled as a pure state-transformer semantics:
the connection registry (the `threads` hash map keyed by datagram peer,
the `unclaimed_threads` holding deque, and the global player counter)
is an explicit state record, and each Rust method becomes a Lean
function from state to state.  Machine integers are modelled as Nat/Int
with explicit wrap-around where the source can overflow.
-/

namespace Globed

/-- Model of SocketAddrV4 as an (ip, port) pair. -/
abbrev Addr := Nat × Nat

/-- Model of GameServerThread (server.rs): the fields that server.rs
reads or writes.  Atomics become plain fields; `tid` models pointer
identity (Arc::ptr_eq compares allocation identity, not field values). -/
structure GameServerThread where
  tid : Nat
  claim_secret_key : Nat
  claimed : Bool
  udp_peer : Addr
  tcp_peer : Addr
  account_id : Int
  level_id : Int
  room_id : Nat
  deriving DecidableEq, Repr

/-- Model of the server-wide mutable state used by server.rs:
the Active table (`threads`, an FxHashMap from datagram peer to thread,
modelled as an association list with unique keys), the unclaimed
holding (`unclaimed_threads`, a VecDeque), and the global player count. -/
structure Registry where
  unclaimed_threads : List GameServerThread
  threads : List (Addr × GameServerThread)
  player_count : Nat
  deriving DecidableEq, Repr

/-- Model of Rust Iterator::position: index of the first element
satisfying the predicate. -/
def position (p : α → Bool) : List α → Option Nat
  | [] => none
  | x :: xs => if p x then some 0 else (position p xs).map (· + 1)

/-- Model of FxHashMap::insert: replaces any existing binding for the key. -/
def hmInsert (m : List (Addr × GameServerThread)) (k : Addr) (v : GameServerThread) :
    List (Addr × GameServerThread) :=
  (k, v) :: m.filter (fun q => !(q.1 == k))

/-- The predicate searched by GameServer::claim_thread (server.rs:205-207):
claim key matches and the thread is not yet claimed. -/
def claimMatch (secret_key : Nat) (thr : GameServerThread) : Bool :=
  thr.claim_secret_key == secret_key && !thr.claimed

/-- Model of GameServer::claim_thread (server.rs:203-216).  Locks the
unclaimed holding, finds the first unclaimed thread with the given key,
removes it, binds the datagram peer, marks it claimed, and inserts it
into the Active table under the datagram peer. -/
def claim_thread (st : Registry) (udp_addr : Addr) (secret_key : Nat) : Registry :=
  match position (claimMatch secret_key) st.unclaimed_threads with
  | some idx =>
    match st.unclaimed_threads[idx]? with
    | some thread =>
      let thread := { thread with udp_peer := udp_addr, claimed := true }
      { st with
        unclaimed_threads := st.unclaimed_threads.eraseIdx idx
        threads := hmInsert st.threads udp_addr thread }
    | none => st
  | none => st

/-- Model of the lookup performed by GameServer::check_already_logged_in
(server.rs:295-315): it searches only the Active table (`threads`) for a
thread with the given account id; the unclaimed holding is never
inspected.  The returned thread, when present, is sent a
TerminationNotice and its cleanup is awaited. -/
def check_already_logged_in (st : Registry) (user_id : Int) : Option GameServerThread :=
  (st.threads.map Prod.snd).find? (fun thr => thr.account_id == user_id)

/-- Wrapping decrement of an AtomicU32 (fetch_sub(1) wraps at 2^32). -/
def subWrap32 (n : Nat) : Nat := (n + (2 ^ 32 - 1)) % 2 ^ 32

/-- The registry-removal half of GameServer::post_disconnect_cleanup
(server.rs:401-418): if the thread was claimed, the Active-table entry
whose thread has the given tcp peer is removed; otherwise the thread is
removed from the unclaimed holding (found by pointer identity). -/
def cleanup_remove (st : Registry) (thread : GameServerThread) (tcp_peer : Addr) : Registry :=
  if thread.claimed then
    match (st.threads.find? (fun q => q.2.tcp_peer == tcp_peer)).map Prod.fst with
    | some udp_peer => { st with threads := st.threads.filter (fun q => !(q.1 == udp_peer)) }
    | none => st
  else
    match position (fun thr => thr.tid == thread.tid) st.unclaimed_threads with
    | some idx => { st with unclaimed_threads := st.unclaimed_threads.eraseIdx idx }
    | none => st

/-- Model of GameServer::post_disconnect_cleanup (server.rs:400-445).
After the registry removal, iff the account id is non-zero, the player
count is decremented (and the thread is removed from its room and
level; the room manager is an external collaborator, spec section 6,
and is not modelled). -/
def post_disconnect_cleanup (st : Registry) (thread : GameServerThread) (tcp_peer : Addr) :
    Registry :=
  let st := cleanup_remove st thread tcp_peer
  if thread.account_id == 0 then st
  else { st with player_count := subWrap32 st.player_count }

/-!
Client side: model of src/server/game/src/client/unauthorized.rs.
The UnauthorizedThread is modelled as a record of its mutable fields
(`UState`); the login handler becomes a pure function from the packet,
the external collaborators (token issuer, central service, boot
configuration) and the thread state to a reply plus a new thread state.
A reply of `panicked` models a Rust panic (Option::unwrap on None); the
state paired with it is the state at the moment of the panic.
-/

/-- Model of the ClientThreadState enum referenced by unauthorized.rs. -/
inductive ClientThreadState
  | unauthorized
  | unclaimed
  | established
  | terminating
  | disconnected
  deriving DecidableEq, Repr

/-- Model of UserEntry as consumed by handle_login: ban status,
whitelist status, violation reason and expiry. -/
structure UserEntry where
  is_banned : Bool
  is_whitelisted : Bool
  violation_reason : Option String
  violation_expiry : Option Int
  deriving DecidableEq, Repr

/-- Model of LoginPacket (spec section 6): the fields handle_login reads. -/
structure LoginPacket where
  account_id : Int
  user_id : Int
  name : String
  token : String
  fragmentation_limit : Nat
  platform : String
  deriving DecidableEq, Repr

/-- External collaborators of handle_login, fixed for one call: the
standalone flag, the maintenance flag of the central configuration, the
whitelist mode, the outcome of token validation (authoritative name or
issuer error message), and the outcome of the central user-data fetch. -/
structure LoginEnv where
  standalone : Bool
  maintenance : Bool
  whitelist : Bool
  tokenResult : Except String String
  userFetch : Except String UserEntry

/-- Mutable state of an UnauthorizedThread that the modelled handlers
touch.  `pcDelta` accumulates this thread's increments of the global
player counter (fetch_add calls made by this thread). -/
structure UState where
  connection_state : ClientThreadState
  secret_key : Nat
  fragmentation_limit : Nat
  account_id : Int
  user_entry : Option UserEntry
  pcDelta : Nat
  deriving DecidableEq, Repr

/-- Reasons the login handler can panic (Option::unwrap on None). -/
inductive PanicReason
  | violationExpiryUnwrapNone
  | userEntryUnwrapNone
  deriving DecidableEq, Repr

/-- Observable reply of handle_login: which packet was sent to the
client (ServerDisconnect for kicked, LoginFailed, ServerBanned,
LoggedIn), or a panic. -/
inductive LoginReply
  | kicked (message : String)
  | loginFailed (message : String)
  | serverBanned (message : String) (timestamp : Int)
  | panicked (reason : PanicReason)
  | loggedIn (secret_key : Nat)
  deriving DecidableEq, Repr

def maintenanceMsg : String :=
  "The server is currently under maintenance, please try connecting again later."

def fragLimitMsg (n : Nat) : String :=
  "The client fragmentation limit is too low (" ++ toString n ++ " bytes) to be accepted"

def invalidIdsMsg (a u : Int) : String :=
  "Invalid account/user ID was sent (" ++ toString a ++ " and " ++ toString u ++
    "). Please note that you must be signed into a Geometry Dash account before connecting."

def authFailedMsg (e : String) : String := "authentication failed: " ++ e

def whitelistMsg : String :=
  "This server has whitelist enabled and your account has not been allowed."

def fetchFailedMsg (e : String) : String := "failed to fetch user data: " ++ e

def noReasonMsg : String := "No reason given"

/-- Model of the commit tail of handle_login (unauthorized.rs:274-318):
store the account id, increment the player count, install account data
(whose special-user part unwraps the user entry: None panics), add the
player to the global room (external, untracked), send LoggedIn with the
claim secret key, and only then revert the state to Unclaimed. -/
def loginCommit (packet : LoginPacket) (self : UState) : LoginReply × UState :=
  let self := { self with account_id := packet.account_id, pcDelta := self.pcDelta + 1 }
  match self.user_entry with
  | none => (.panicked .userEntryUnwrapNone, self)
  | some _ =>
    (.loggedIn self.secret_key, { self with connection_state := ClientThreadState.unclaimed })

/-- Model of UnauthorizedThread::handle_login (unauthorized.rs:176-319).
The handler first preemptively sets the state to Terminating; only the
fully successful path reverts it to Unclaimed at the very end. -/
def handle_login (env : LoginEnv) (packet : LoginPacket) (self : UState) :
    LoginReply × UState :=
  -- preemptively set the status to terminating, reverted only on full success
  let self := { self with connection_state := ClientThreadState.terminating }
  if env.maintenance then
    (.kicked maintenanceMsg, self)
  else if packet.fragmentation_limit < 1300 then
    (.kicked (fragLimitMsg packet.fragmentation_limit), self)
  else
    let self := { self with fragmentation_limit := packet.fragmentation_limit }
    if packet.account_id ≤ 0 ∨ packet.user_id ≤ 0 then
      (.loginFailed (invalidIdsMsg packet.account_id packet.user_id), self)
    else
      match (if env.standalone then Except.ok packet.name else env.tokenResult) with
      | .error err => (.loginFailed (authFailedMsg err), self)
      | .ok _player_name =>
        -- check_already_logged_in: evicts any Active-table thread under
        -- this account id and awaits its cleanup; always returns Ok
        if env.standalone then
          loginCommit packet self
        else
          match env.userFetch with
          | .ok user =>
            if user.is_banned then
              match user.violation_expiry with
              | some ts => (.serverBanned (user.violation_reason.getD noReasonMsg) ts, self)
              | none => (.panicked .violationExpiryUnwrapNone, self)
            else if env.whitelist && !user.is_whitelisted then
              (.loginFailed whitelistMsg, self)
            else
              loginCommit packet { self with user_entry := some user }
          | .error err => (.loginFailed (fetchFailedMsg err), self)

/-- Errors of the pre-active packet dispatcher (unauthorized.rs:129-153). -/
inductive PacketHandlingError
  | malformedMessage
  | malformedLoginAttempt
  | noHandler (id : Nat)
  deriving DecidableEq, Repr

/-- Inbound reliable-channel frame bodies that unauthorized.rs can see. -/
inductive FrameBody
  | handshake (protocol : Nat) (key : Nat)
  | login (packet : LoginPacket)
  | otherId (id : Nat)
  deriving DecidableEq, Repr

/-- An inbound frame: body plus the encrypted flag of its header. -/
structure Frame where
  body : FrameBody
  encrypted : Bool
  deriving DecidableEq, Repr

/-- Packet id constants.  The data module defining the concrete values
is outside src/; only distinctness of the ids matters to the claims. -/
def CRYPTO_HANDSHAKE_START_PACKET_ID : Nat := 10000

def LOGIN_PACKET_ID : Nat := 10004

def PROTOCOL_VERSION : Nat := 13

/-- Header packet id carried by a frame body. -/
def frameId : FrameBody → Nat
  | .handshake _ _ => CRYPTO_HANDSHAKE_START_PACKET_ID
  | .login _ => LOGIN_PACKET_ID
  | .otherId id => id

/-- Observable result of a pre-active handler. -/
inductive HandlerOutput
  | handshakeOk
  | protocolMismatch
  | loginReply (reply : LoginReply)
  deriving DecidableEq, Repr

/-- Model of UnauthorizedThread::handle_crypto_handshake
(unauthorized.rs:157-174): on protocol mismatch (and not the 0xffff
wildcard), terminate and send ProtocolMismatch; otherwise initialize
the crypto box and send the handshake response. -/
def handle_crypto_handshake (self : UState) (protocol : Nat) :
    Except PacketHandlingError HandlerOutput × UState :=
  if protocol != PROTOCOL_VERSION && protocol != 0xffff then
    (.ok .protocolMismatch, { self with connection_state := ClientThreadState.terminating })
  else
    (.ok .handshakeOk, self)

/-- Model of UnauthorizedThread::handle_packet (unauthorized.rs:129-153).
A frame whose header carries the login packet id without the encrypted
flag is rejected with MalformedLoginAttempt before any handler runs and
without touching the thread state.  Decryption is modelled as
transparent.  Unknown ids yield NoHandler. -/
def handle_packet (env : LoginEnv) (self : UState) (frame : Frame) :
    Except PacketHandlingError HandlerOutput × UState :=
  -- reject cleartext credentials
  if frameId frame.body == LOGIN_PACKET_ID && !frame.encrypted then
    (.error .malformedLoginAttempt, self)
  else
    match frame.body with
    | .handshake protocol _key => handle_crypto_handshake self protocol
    | .login packet =>
      let r := handle_login env packet self
      (.ok (.loginReply r.1), r.2)
    | .otherId id => (.error (.noHandler id), self)

/-- Outcome of UnauthorizedThread::run. -/
inductive UnauthorizedThreadOutcome
  | upgrade
  | terminate
  deriving DecidableEq, Repr

/-- Model of the state inspection at the top of each iteration of
UnauthorizedThread::run (unauthorized.rs:79-86): Established breaks
with Upgrade, Terminating breaks with Terminate, Unauthorized and
Unclaimed keep looping (none).  Disconnected is unreachable in the
source. -/
def run_check : ClientThreadState → Option UnauthorizedThreadOutcome
  | .established => some .upgrade
  | .terminating => some .terminate
  | .unauthorized => none
  | .unclaimed => none
  | .disconnected => none

/-- Model of the frame-arrival arm of the run loop select
(unauthorized.rs:94-107): the frame is handled; a handler error is only
logged (warn) and does not by itself change the connection state, so
the loop continues with whatever state the handler left behind. -/
def run_handle_frame (env : LoginEnv) (self : UState) (frame : Frame) : UState :=
  (handle_packet env self frame).2

/-- Classification of the handled early-return replies of handle_login
(kick, LoginFailed, ServerBanned); panics abort the handler and success
is LoggedIn. -/
def isRejection : LoginReply → Bool
  | .kicked _ => true
  | .loginFailed _ => true
  | .serverBanned _ _ => true
  | .panicked _ => false
  | .loggedIn _ => false

/-!
Concrete inputs used to instantiate the theorems below.
-/

/-- An unclaimed thread holding claim key 5. -/
def thrA : GameServerThread :=
  { tid := 1, claim_secret_key := 5, claimed := false, udp_peer := (0, 0)
    tcp_peer := (10, 1), account_id := 0, level_id := 0, room_id := 0 }

/-- A second unclaimed thread holding the same claim key 5. -/
def thrB : GameServerThread :=
  { tid := 2, claim_secret_key := 5, claimed := false, udp_peer := (0, 0)
    tcp_peer := (10, 2), account_id := 0, level_id := 0, room_id := 0 }

/-- An Active-table thread bound under datagram peer (7, 7). -/
def thrC : GameServerThread :=
  { tid := 3, claim_secret_key := 9, claimed := true, udp_peer := (7, 7)
    tcp_peer := (10, 3), account_id := 12, level_id := 0, room_id := 0 }

/-- An unclaimed thread that already holds account id 42. -/
def thrD : GameServerThread :=
  { tid := 4, claim_secret_key := 8, claimed := false, udp_peer := (0, 0)
    tcp_peer := (10, 4), account_id := 42, level_id := 0, room_id := 0 }

/-- Registry with one unclaimed thread (key 5) and an empty Active table. -/
def stA : Registry := { unclaimed_threads := [thrA], threads := [], player_count := 0 }

/-- Registry with two unclaimed threads sharing claim key 5. -/
def stB : Registry := { unclaimed_threads := [thrA, thrB], threads := [], player_count := 0 }

/-- Registry with one unclaimed thread (key 5) and peer (7, 7) already
bound in the Active table. -/
def stC : Registry :=
  { unclaimed_threads := [thrA], threads := [((7, 7), thrC)], player_count := 1 }

/-- Registry where account 42 sits only in the unclaimed holding. -/
def stD : Registry :=
  { unclaimed_threads := [thrD], threads := [((7, 7), thrC)], player_count := 2 }

/-- A login environment whose token validation fails. -/
def envTok : LoginEnv :=
  { standalone := false, maintenance := false, whitelist := false
    tokenResult := .error "token expired", userFetch := .error "unused" }

/-- A login environment that fetches a banned user with no expiry. -/
def envBan : LoginEnv :=
  { standalone := false, maintenance := false, whitelist := false
    tokenResult := .ok "alice", userFetch := .ok
      { is_banned := true, is_whitelisted := false
        violation_reason := none, violation_expiry := none } }

/-- A login environment where everything succeeds. -/
def envOk : LoginEnv :=
  { standalone := false, maintenance := false, whitelist := false
    tokenResult := .ok "alice", userFetch := .ok
      { is_banned := false, is_whitelisted := true
        violation_reason := none, violation_expiry := none } }

/-- A well-formed login packet for account 42. -/
def pktOk : LoginPacket :=
  { account_id := 42, user_id := 100, name := "alice", token := "T"
    fragmentation_limit := 1400, platform := "android" }

/-- A fresh unauthorized thread state with claim secret key 77. -/
def s0 : UState :=
  { connection_state := .unauthorized, secret_key := 77, fragmentation_limit := 0
    account_id := 0, user_entry := none, pcDelta := 0 }

/- Helper lemmas about `position`. -/

/-- A position search that finds nothing means no element matches. -/
theorem position_eq_none_iff (p : α → Bool) (l : List α) :
    position p l = none ↔ ∀ x ∈ l, p x = false := by
  induction l with
  | nil => simp [position]
  | cons a l ih =>
    by_cases h : p a
    · simp [position, h]
    · simp only [position, h, if_false, List.mem_cons]
      constructor
      · intro hmap
        have hnone : position p l = none := by
          cases hpos : position p l with
          | none => rfl
          | some i => rw [hpos] at hmap; simp [Option.map] at hmap
        intro x hx
        rcases hx with rfl | hx
        · simpa using h
        · exact (ih.mp hnone) x hx
      · intro hall
        have hnone : position p l = none := ih.mpr (fun x hx => hall x (Or.inr hx))
        simp [hnone]

/-- The element at a found position satisfies the predicate. -/
theorem position_sat (p : α → Bool) (l : List α) (i : Nat) (x : α)
    (hpos : position p l = some i) (hget : l[i]? = some x) : p x = true := by
  induction l generalizing i with
  | nil => simp [position] at hpos
  | cons a l ih =>
    by_cases h : p a
    · simp only [position, h, if_true, Option.some.injEq] at hpos
      subst hpos
      simp only [List.getElem?_cons_zero, Option.some.injEq] at hget
      subst hget; exact h
    · simp [position, h] at hpos
      cases hpos' : position p l with
      | none => rw [hpos'] at hpos; simp [Option.map] at hpos
      | some j =>
        rw [hpos'] at hpos
        simp only [Option.some.injEq] at hpos
        obtain ⟨k, rfl, rfl⟩ := hpos
        simp only [List.getElem?_cons_succ] at hget
        exact ih j hpos' hget

/-- A found position is in range, so the element exists. -/
theorem position_get (p : α → Bool) (l : List α) (i : Nat)
    (hpos : position p l = some i) : ∃ x, l[i]? = some x := by
  induction l generalizing i with
  | nil => simp [position] at hpos
  | cons a l ih =>
    by_cases h : p a
    · simp only [position, h, if_true, Option.some.injEq] at hpos
      subst hpos; exact ⟨a, by simp⟩
    · simp [position, h] at hpos
      cases hpos' : position p l with
      | none => rw [hpos'] at hpos; simp [Option.map] at hpos
      | some j =>
        rw [hpos'] at hpos
        simp only [Option.some.injEq] at hpos
        obtain ⟨k, rfl, rfl⟩ := hpos
        obtain ⟨x, hx⟩ := ih j hpos'
        exact ⟨x, by simpa using hx⟩

/-- Erasing the found element decrements the match count by one. -/
theorem countP_eraseIdx_position (p : α → Bool) (l : List α) (i : Nat)
    (hpos : position p l = some i) :
    (l.eraseIdx i).countP p + 1 = l.countP p := by
  induction l generalizing i with
  | nil => simp [position] at hpos
  | cons a l ih =>
    by_cases h : p a
    · simp only [position, h, if_true, Option.some.injEq] at hpos
      subst hpos
      simp [List.eraseIdx, List.countP_cons, h]
    · simp [position, h] at hpos
      cases hpos' : position p l with
      | none => rw [hpos'] at hpos; simp [Option.map] at hpos
      | some j =>
        rw [hpos'] at hpos
        simp only [Option.some.injEq] at hpos
        obtain ⟨k, rfl, rfl⟩ := hpos
        simp only [List.eraseIdx_cons_succ, List.countP_cons, h, if_false]
        exact ih j hpos'


/-- Unfolding equation for claim_thread when the search fails. -/
theorem claim_thread_not_found (st : Registry) (P : Addr) (K : Nat)
    (hpos : position (claimMatch K) st.unclaimed_threads = none) :
    claim_thread st P K = st := by
  unfold claim_thread
  rw [hpos]

/-- Unfolding equation for claim_thread when the search succeeds. -/
theorem claim_thread_found (st : Registry) (P : Addr) (K : Nat) (idx : Nat)
    (thr : GameServerThread)
    (hpos : position (claimMatch K) st.unclaimed_threads = some idx)
    (hget : st.unclaimed_threads[idx]? = some thr) :
    claim_thread st P K =
      { st with
        unclaimed_threads := st.unclaimed_threads.eraseIdx idx
        threads := hmInsert st.threads P { thr with udp_peer := P, claimed := true } } := by
  unfold claim_thread
  rw [hpos]
  dsimp only
  rw [hget]

/-- C1: for every registry state, claim_thread with datagram peer P and
key K searches the unclaimed holding for the first session whose claim
key equals K and whose claimed flag is false and, when one is found,
removes it from the holding, sets its datagram peer to P, sets its
claimed flag to true, and inserts it into the Active table under key P. -/
theorem claim_thread_promotes_first_match (st : Registry) (P : Addr) (K : Nat)
    (idx : Nat) (thr : GameServerThread)
    (hpos : position (claimMatch K) st.unclaimed_threads = some idx)
    (hget : st.unclaimed_threads[idx]? = some thr) :
    (claim_thread st P K).unclaimed_threads = st.unclaimed_threads.eraseIdx idx
    ∧ List.lookup P (claim_thread st P K).threads
        = some { thr with udp_peer := P, claimed := true }
    ∧ thr.claim_secret_key = K ∧ thr.claimed = false := by
  have hsat := position_sat _ _ _ _ hpos hget
  simp only [claimMatch, Bool.and_eq_true, beq_iff_eq, Bool.not_eq_true'] at hsat
  rw [claim_thread_found st P K idx thr hpos hget]
  refine ⟨rfl, ?_, hsat.1, hsat.2⟩
  simp [hmInsert, List.lookup]

/-- Witness for C1 at a concrete registry. -/
theorem claim_thread_promotes_first_match_witness :
    (claim_thread stA (7, 8) 5).unclaimed_threads = stA.unclaimed_threads.eraseIdx 0
    ∧ List.lookup (7, 8) (claim_thread stA (7, 8) 5).threads
        = some { thrA with udp_peer := (7, 8), claimed := true }
    ∧ thrA.claim_secret_key = 5 ∧ thrA.claimed = false :=
  claim_thread_promotes_first_match stA (7, 8) 5 0 thrA (by decide) (by decide)

/-- C5: for every registry state, a claim whose key matches no session
in the unclaimed holding with claimed flag false is a no-op on the
whole registry (both tables, and the player count, are unchanged). -/
theorem claim_thread_unknown_key_noop (st : Registry) (P : Addr) (K : Nat)
    (h : ∀ thr ∈ st.unclaimed_threads, ¬(thr.claim_secret_key = K ∧ thr.claimed = false)) :
    claim_thread st P K = st := by
  have hnone : position (claimMatch K) st.unclaimed_threads = none := by
    rw [position_eq_none_iff]
    intro thr hm
    cases hc : claimMatch K thr with
    | false => rfl
    | true =>
      exfalso
      simp only [claimMatch, Bool.and_eq_true, beq_iff_eq, Bool.not_eq_true'] at hc
      exact h thr hm hc
  exact claim_thread_not_found st P K hnone

/-- Witness for C5: key 9 matches nothing in stA. -/
theorem claim_thread_unknown_key_noop_witness :
    claim_thread stA (7, 8) 9 = stA :=
  claim_thread_unknown_key_noop stA (7, 8) 9 (by decide)

/-- C6 counterexample: in a reachable registry where two unclaimed
sessions share claim key 5 (the spec tolerates random-key collisions),
two claim packets with key 5 promote two sessions into the Active
table, so the two packets do not bind at most one session. -/
theorem two_claims_same_key_bind_two :
    stB.threads.length = 0
    ∧ (claim_thread stB (7, 1) 5).threads.length = 1
    ∧ ((claim_thread (claim_thread stB (7, 1) 5) (7, 2) 5).threads.length = 2) := by
  decide

/-- C6 amended: provided at most one session in the unclaimed holding
matches key K (claim key K and claimed flag false), a second claim
packet with the same key promotes no further session: it is a no-op,
because the first claim removed the only matching session from the
holding. -/
theorem second_claim_same_key_noop (st : Registry) (P Q : Addr) (K : Nat)
    (h : st.unclaimed_threads.countP (claimMatch K) ≤ 1) :
    claim_thread (claim_thread st P K) Q K = claim_thread st P K := by
  cases hpos : position (claimMatch K) st.unclaimed_threads with
  | none =>
    rw [claim_thread_not_found st P K hpos, claim_thread_not_found st Q K hpos]
  | some idx =>
    obtain ⟨thr, hget⟩ := position_get _ _ _ hpos
    have hcount := countP_eraseIdx_position _ _ _ hpos
    have hzero : (st.unclaimed_threads.eraseIdx idx).countP (claimMatch K) = 0 := by omega
    have hnone2 : position (claimMatch K) (st.unclaimed_threads.eraseIdx idx) = none := by
      rw [position_eq_none_iff]
      intro x hx
      cases hc : claimMatch K x with
      | false => rfl
      | true =>
        exfalso
        have hgt : 0 < (st.unclaimed_threads.eraseIdx idx).countP (claimMatch K) :=
          List.countP_pos_iff.mpr ⟨x, hx, hc⟩
        omega
    rw [claim_thread_found st P K idx thr hpos hget]
    exact claim_thread_not_found _ Q K hnone2

/-- Witness for the amended C6 at a concrete registry with a unique key. -/
theorem second_claim_same_key_noop_witness :
    claim_thread (claim_thread stA (7, 1) 5) (7, 2) 5 = claim_thread stA (7, 1) 5 :=
  second_claim_same_key_noop stA (7, 1) (7, 2) 5 (by decide)

/-- C9: when the claim procedure matches an unclaimed session and the
claiming datagram peer P already keys an Active-table entry holding a
different session, the insert silently replaces that entry: afterwards
the newly claimed session (peer bound to P, claimed set) is in the
Active table under P, and the previously bound session is in neither
the Active table nor the unclaimed holding. -/
theorem claim_thread_replaces_active_entry (st : Registry) (P : Addr) (K : Nat)
    (idx : Nat) (thr old : GameServerThread)
    (hpos : position (claimMatch K) st.unclaimed_threads = some idx)
    (hget : st.unclaimed_threads[idx]? = some thr)
    (hold : List.lookup P st.threads = some old)
    (holdKey : ∀ q ∈ st.threads, q.2.tid = old.tid → q.1 = P)
    (holdUncl : ∀ t ∈ st.unclaimed_threads, t.tid ≠ old.tid)
    (hdiff : thr.tid ≠ old.tid) :
    List.lookup P (claim_thread st P K).threads
      = some { thr with udp_peer := P, claimed := true }
    ∧ (∀ q ∈ (claim_thread st P K).threads, q.2.tid ≠ old.tid)
    ∧ (∀ t ∈ (claim_thread st P K).unclaimed_threads, t.tid ≠ old.tid) := by
  rw [claim_thread_found st P K idx thr hpos hget]
  refine ⟨?_, ?_, ?_⟩
  · simp [hmInsert, List.lookup]
  · intro q hq
    simp only [hmInsert, List.mem_cons] at hq
    rcases hq with rfl | hq
    · exact hdiff
    · obtain ⟨hq, hne⟩ := List.mem_filter.mp hq
      intro htid
      have := holdKey q hq htid
      simp [this] at hne
  · intro t ht
    exact holdUncl t ((List.eraseIdx_sublist st.unclaimed_threads idx).subset ht)

/-- Witness for C9: claiming key 5 from the already-bound peer (7, 7). -/
theorem claim_thread_replaces_active_entry_witness :
    List.lookup (7, 7) (claim_thread stC (7, 7) 5).threads
      = some { thrA with udp_peer := (7, 7), claimed := true }
    ∧ (∀ q ∈ (claim_thread stC (7, 7) 5).threads, q.2.tid ≠ thrC.tid)
    ∧ (∀ t ∈ (claim_thread stC (7, 7) 5).unclaimed_threads, t.tid ≠ thrC.tid) :=
  claim_thread_replaces_active_entry stC (7, 7) 5 0 thrA thrC
    (by decide) (by decide) (by decide) (by decide) (by decide) (by decide)

/-- C10: check_already_logged_in inspects only the Active table; when
a session holding the same non-zero account id exists only in the
unclaimed holding, the lookup finds no session (so no TerminationNotice
is sent, no cleanup is awaited, and the new login proceeds, leaving two
sessions with the same non-zero account id). -/
theorem check_already_logged_in_ignores_unclaimed (st : Registry) (a : Int)
    (hactive : ∀ q ∈ st.threads, q.2.account_id ≠ a)
    (dup : GameServerThread) (hdup : dup ∈ st.unclaimed_threads)
    (hacc : dup.account_id = a) (hnz : a ≠ 0) :
    check_already_logged_in st a = none := by
  unfold check_already_logged_in
  rw [List.find?_eq_none]
  intro thr hm
  simp only [List.mem_map] at hm
  obtain ⟨q, hq, rfl⟩ := hm
  simpa using hactive q hq

/-- Witness for C10: account 42 lives only in the unclaimed holding. -/
theorem check_already_logged_in_ignores_unclaimed_witness :
    check_already_logged_in stD 42 = none :=
  check_already_logged_in_ignores_unclaimed stD 42 (by decide) thrD
    (by decide) (by decide) (by decide)

/-- C2 counterexample: on a login with a failed token validation, the
handler does send LoginFailed with the issuer message, but the state it
leaves behind is Terminating (set preemptively at login entry and never
reverted), and the run loop then returns Terminate: the claim that the
state is not Terminating and the loop continues is false on this input. -/
theorem login_token_failure_terminates :
    (handle_login envTok pktOk s0).1 = .loginFailed (authFailedMsg "token expired")
    ∧ (handle_login envTok pktOk s0).2.connection_state = .terminating
    ∧ run_check (handle_login envTok pktOk s0).2.connection_state
        = some .terminate := by
  decide

/-- C2 amended: for every non-standalone login whose token validation
fails and that reaches the token check (maintenance off, fragmentation
limit accepted, positive ids), the server sends LoginFailed carrying
the issuer message and the handler returns normally, but the state set
preemptively at login entry remains Terminating, so the run loop
returns Terminate rather than awaiting further frames: the connection
does not survive for a retry. -/
theorem login_token_failure_sends_loginfailed (env : LoginEnv) (packet : LoginPacket)
    (self : UState) (e : String)
    (hsa : env.standalone = false)
    (hm : env.maintenance = false)
    (hfrag : 1300 ≤ packet.fragmentation_limit)
    (hacc : 0 < packet.account_id) (husr : 0 < packet.user_id)
    (htok : env.tokenResult = .error e) :
    (handle_login env packet self).1 = .loginFailed (authFailedMsg e)
    ∧ (handle_login env packet self).2.connection_state = .terminating
    ∧ run_check (handle_login env packet self).2.connection_state
        = some .terminate := by
  have h1 : ¬(packet.fragmentation_limit < 1300) := by omega
  have h2 : ¬(packet.account_id ≤ 0 ∨ packet.user_id ≤ 0) := by omega
  simp [handle_login, hm, hsa, htok, h1, h2, run_check]

/-- Witness for the amended C2 at a concrete login attempt. -/
theorem login_token_failure_sends_loginfailed_witness :
    (handle_login envTok pktOk s0).1 = .loginFailed (authFailedMsg "token expired")
    ∧ (handle_login envTok pktOk s0).2.connection_state = .terminating
    ∧ run_check (handle_login envTok pktOk s0).2.connection_state
        = some .terminate :=
  login_token_failure_sends_loginfailed envTok pktOk s0 "token expired"
    rfl rfl (by decide) (by decide) (by decide) rfl

/-- C3 counterexample: a cleartext login frame handled from the
Unauthorized state yields the MalformedLoginAttempt error, but the run
loop only logs handler errors: the state afterwards is not Terminating
and the loop continues awaiting frames instead of returning Terminate,
so the claim that such a frame terminates the session is false on this
input. -/
theorem cleartext_login_does_not_terminate :
    (handle_packet envTok s0 ⟨.login pktOk, false⟩).1 = .error .malformedLoginAttempt
    ∧ (run_handle_frame envTok s0 ⟨.login pktOk, false⟩).connection_state ≠ .terminating
    ∧ run_check (run_handle_frame envTok s0 ⟨.login pktOk, false⟩).connection_state
        = none :=
  ⟨rfl, by decide, rfl⟩

/-- C3 amended: for every frame whose header carries the login packet
id with the encrypted flag false, handle_packet rejects it with
MalformedLoginAttempt before running any handler and leaves the thread
state untouched; the run loop merely logs handler errors, so from the
Unauthorized state the loop keeps awaiting frames (it neither upgrades
nor terminates). -/
theorem cleartext_login_rejected_recoverable (env : LoginEnv) (self : UState)
    (packet : LoginPacket) (hstate : self.connection_state = .unauthorized) :
    handle_packet env self ⟨.login packet, false⟩ = (.error .malformedLoginAttempt, self)
    ∧ run_check (run_handle_frame env self ⟨.login packet, false⟩).connection_state
        = none := by
  constructor
  · simp [handle_packet, frameId]
  · simp [run_handle_frame, handle_packet, frameId, hstate, run_check]

/-- Witness for the amended C3 at a concrete cleartext login frame. -/
theorem cleartext_login_rejected_recoverable_witness :
    handle_packet envTok s0 ⟨.login pktOk, false⟩ = (.error .malformedLoginAttempt, s0)
    ∧ run_check (run_handle_frame envTok s0 ⟨.login pktOk, false⟩).connection_state
        = none :=
  cleartext_login_rejected_recoverable envTok s0 pktOk (by decide)

/-- C7: with maintenance off (so that the fragmentation check is
reached), a login advertising a fragmentation limit of 1299 bytes or
below is kicked with a disconnect message and the session stays
Terminating, while the fragmentation_limit field is left untouched; a
limit of 1300 bytes or above passes the check, is never kicked, and the
limit is stored in the session fragmentation_limit field on every
subsequent path. -/
theorem fragmentation_limit_boundary (env : LoginEnv) (packet : LoginPacket)
    (self : UState) (hm : env.maintenance = false) :
    (packet.fragmentation_limit < 1300 →
      (handle_login env packet self).1 = .kicked (fragLimitMsg packet.fragmentation_limit)
      ∧ (handle_login env packet self).2.connection_state = .terminating
      ∧ (handle_login env packet self).2.fragmentation_limit = self.fragmentation_limit)
    ∧ (1300 ≤ packet.fragmentation_limit →
      (handle_login env packet self).2.fragmentation_limit = packet.fragmentation_limit
      ∧ ∀ m, (handle_login env packet self).1 ≠ .kicked m) := by
  constructor
  · intro hlt
    simp [handle_login, hm, hlt]
  · intro hge
    have h1 : ¬(packet.fragmentation_limit < 1300) := by omega
    unfold handle_login loginCommit
    simp only [hm, Bool.false_eq_true, if_false, h1]
    repeat' split
    all_goals simp

/-- Witness for C7: the 1400-byte limit of pktOk is accepted and stored. -/
theorem fragmentation_limit_boundary_witness :
    (handle_login envOk pktOk s0).2.fragmentation_limit = pktOk.fragmentation_limit
    ∧ ∀ m, (handle_login envOk pktOk s0).1 ≠ .kicked m :=
  (fragmentation_limit_boundary envOk pktOk s0 (by decide)).2 (by decide)

/-- C8: a non-standalone login that passes token validation and fetches
a banned user entry whose violation_expiry is None panics inside the
handler at the unwrap of violation_expiry while building the
ServerBanned packet. -/
theorem banned_without_expiry_panics :
    (handle_login envBan pktOk s0).1 = .panicked .violationExpiryUnwrapNone := by
  decide

/-- Every run of handle_login either leaves the player-count delta
unchanged and replies with a handled rejection, or charges exactly one
increment (the commit path, which ends in LoggedIn or in the
user-entry unwrap panic). -/
theorem handle_login_pcDelta_cases (env : LoginEnv) (packet : LoginPacket) (self : UState) :
    ((handle_login env packet self).2.pcDelta = self.pcDelta
      ∧ (isRejection (handle_login env packet self).1 = true
          ∨ (handle_login env packet self).1 = .panicked .violationExpiryUnwrapNone))
    ∨ ((handle_login env packet self).2.pcDelta = self.pcDelta + 1
      ∧ ((∃ k, (handle_login env packet self).1 = .loggedIn k)
          ∨ (handle_login env packet self).1 = .panicked .userEntryUnwrapNone)) := by
  unfold handle_login loginCommit
  repeat' split
  all_goals first
  | (simp [isRejection]; done)
  | (cases hue : self.user_entry <;> simp [isRejection, hue])

/-- The registry-removal half of cleanup never touches the player count. -/
theorem cleanup_remove_player_count (st : Registry) (thread : GameServerThread)
    (tcp_peer : Addr) :
    (cleanup_remove st thread tcp_peer).player_count = st.player_count := by
  unfold cleanup_remove
  repeat' split
  all_goals rfl

/-- C4: the player count is incremented exactly once per successful
login and never on a handled rejection path, and cleanup decrements it
exactly once iff the account id was set: handle_login leaves the
player-count delta unchanged on every kick, LoginFailed and
ServerBanned path and charges exactly one increment when it replies
LoggedIn, while post_disconnect_cleanup leaves the player count
unchanged when the account id is zero and decrements it by one when the
account id is non-zero (stated below the 2^32 wrap of the counter). -/
theorem player_count_discipline :
    (∀ env packet self, isRejection (handle_login env packet self).1 = true →
        (handle_login env packet self).2.pcDelta = self.pcDelta)
    ∧ (∀ env packet self k, (handle_login env packet self).1 = LoginReply.loggedIn k →
        (handle_login env packet self).2.pcDelta = self.pcDelta + 1)
    ∧ (∀ st thr peer, thr.account_id = 0 →
        (post_disconnect_cleanup st thr peer).player_count = st.player_count)
    ∧ (∀ st thr peer, thr.account_id ≠ 0 → 0 < st.player_count →
        st.player_count ≤ 2 ^ 32 →
        (post_disconnect_cleanup st thr peer).player_count = st.player_count - 1) := by
  refine ⟨?_, ?_, ?_, ?_⟩
  · intro env packet self h
    rcases handle_login_pcDelta_cases env packet self with ⟨hd, _⟩ | ⟨_, hr⟩
    · exact hd
    · exfalso
      rcases hr with ⟨k, hk⟩ | hk <;> rw [hk] at h <;> simp [isRejection] at h
  · intro env packet self k h
    rcases handle_login_pcDelta_cases env packet self with ⟨_, hr⟩ | ⟨hd, _⟩
    · rcases hr with hr | hr
      · rw [h] at hr; simp [isRejection] at hr
      · rw [h] at hr; exact absurd hr (by simp)
    · exact hd
  · intro st thr peer h0
    unfold post_disconnect_cleanup
    have : (thr.account_id == 0) = true := by simp [h0]
    simp only [this, if_true]
    exact cleanup_remove_player_count st thr peer
  · intro st thr peer h0 hpos hle
    unfold post_disconnect_cleanup
    have : (thr.account_id == 0) = false := by simp [h0]
    simp only [this, Bool.false_eq_true, if_false]
    rw [cleanup_remove_player_count st thr peer]
    unfold subWrap32
    omega

/-- Witness for C4: a successful login charges one increment, and
cleanup of a thread with account id 12 decrements the count by one. -/
theorem player_count_discipline_witness :
    (handle_login envOk pktOk s0).2.pcDelta = s0.pcDelta + 1
    ∧ (post_disconnect_cleanup stC thrC (10, 3)).player_count = stC.player_count - 1 :=
  ⟨player_count_discipline.2.1 envOk pktOk s0 s0.secret_key (by decide),
   player_count_discipline.2.2.2 stC thrC (10, 3) (by decide) (by decide) (by decide)⟩

end Globed
